import Mathlib

/-!
Verification of the serverless-tsoa incremental generation orchestrator
(src/index.ts, the revision with the staging directory, conditional copy
and client generation).

The embedding models Node paths as lists of segments: every path the
plugin builds is produced by chains of path.join on segment-shaped
strings without "." or ".." components, for which path.join is exactly
segment concatenation.  File contents are strings; the filesystem is an
association list from paths to contents with shadowing on write, plus
the set of directories ensured so far.  sha1 is modelled as an injective
fingerprint of the content (hash collisions are treated as impossible,
matching the negligible-collision reading of the design), and the
uuid-based fallback of hashFile is modelled as a draw from a counter of
fresh values, each draw distinct from every content fingerprint and from
every other draw.
-/

namespace ServerlessTsoa

/-- A filesystem path as its list of segments. -/
abbrev FsPath := List String

/-- Node path.join restricted to the segment paths the plugin builds:
concatenation of the segment lists. -/
def pathJoin (a b : FsPath) : FsPath := a ++ b

/-- Node path.dirname on segment paths: drop the last segment. -/
def dirname (p : FsPath) : FsPath := p.dropLast

/-- Rendering of a path for log messages. -/
def pathStr (p : FsPath) : String := String.intercalate "/" p

/-- The filesystem: files as an association list (later writes shadow
earlier entries), together with the directories ensured so far. -/
structure FS where
  files : List (FsPath × String)
  dirs : List FsPath
deriving DecidableEq, Repr

/-- fs.readFile: the content of the first entry for the path, if any. -/
def FS.read (fs : FS) (p : FsPath) : Option String :=
  (fs.files.find? (fun e => decide (e.1 = p))).map (fun e => e.2)

/-- Writing a file: prepend the new entry, shadowing older ones. -/
def FS.write (fs : FS) (p : FsPath) (c : String) : FS :=
  { fs with files := (p, c) :: fs.files }

/-- fs.ensureDir: record the directory as present. -/
def FS.ensureDir (fs : FS) (p : FsPath) : FS :=
  { fs with dirs := p :: fs.dirs }

/-- fs.copy: read the source and write its bytes over the destination;
rejects when the source cannot be read. -/
def FS.copy (fs : FS) (src dest : FsPath) : Except String FS :=
  match fs.read src with
  | some c => Except.ok (fs.write dest c)
  | none => Except.error "copy: source does not exist"

/-- Result of sha1 in the model.  content is the digest of readable
bytes, injective on the bytes; fresh is one draw of the sha1(uuid())
fallback, indexed by the draw counter. -/
inductive Hash where
  | content (bytes : String)
  | fresh (nonce : Nat)
deriving DecidableEq, Repr

/-- hashFile (src/index.ts lines 471-479): read the file and digest it;
on any read failure return a digest of fresh randomness, so that every
comparison against the result is treated as different.  The Nat argument
and result thread the randomness counter. -/
def hashFile (fs : FS) (file : FsPath) (nonce : Nat) : Hash × Nat :=
  match fs.read file with
  | some buffer => (Hash.content buffer, nonce)
  | none => (Hash.fresh nonce, nonce + 1)

/-- Which branch a conditionalCopy took.  The source returns void; this
ghost value records whether the copy branch executed. -/
inductive CopyOutcome where
  | written
  | unchanged
deriving DecidableEq, Repr

/-- conditionalCopy (src/index.ts lines 460-469): hash src and dest in
order; when the hashes agree do nothing, otherwise ensure the parent
directory of dest and copy src over dest.  A copy failure (unreadable
src) propagates as an error. -/
def conditionalCopy (fs : FS) (nonce : Nat) (src dest : FsPath) :
    FS × Nat × Except String CopyOutcome :=
  match hashFile fs src nonce with
  | (srcHash, n1) =>
    match hashFile fs dest n1 with
    | (destHash, n2) =>
      if srcHash = destHash then (fs, n2, Except.ok CopyOutcome.unchanged)
      else
        match (fs.ensureDir (dirname dest)).copy src dest with
        | Except.ok fs2 => (fs2, n2, Except.ok CopyOutcome.written)
        | Except.error e => (fs.ensureDir (dirname dest), n2, Except.error e)

/-- The fields of the tsoa ExtendedSpecConfig that the plugin reads.
specFileBaseName and yaml are optional; JS truthiness of the optional
string and boolean is modelled explicitly below. -/
structure ExtendedSpecConfig where
  outputDirectory : FsPath
  specFileBaseName : Option String
  yaml : Option Bool
deriving DecidableEq, Repr

/-- The fields of the tsoa ExtendedRoutesConfig that the plugin reads. -/
structure ExtendedRoutesConfig where
  routesDir : FsPath
  routesFileName : Option String
deriving DecidableEq, Repr

/-- The client configuration: a bare target path string, or an orval
OutputOptions object whose target field is optional. -/
inductive ClientConfig where
  | str (target : FsPath)
  | cfg (target : Option FsPath)
deriving DecidableEq, Repr

/-- typeof client === "string" ? client : client.target -/
def clientTarget : ClientConfig → Option FsPath
  | ClientConfig.str t => some t
  | ClientConfig.cfg t => t

/-- custom.tsoa in serverless.yml. -/
structure PluginConfig where
  reloadHandler : Option Bool
  spec : Option ExtendedSpecConfig
  routes : Option ExtendedRoutesConfig
  client : Option ClientConfig
deriving DecidableEq, Repr

/-- JS `s || d` on a possibly-undefined string: the default is used when
the string is undefined or empty (both falsy). -/
def orDefault (s : Option String) (d : String) : String :=
  match s with
  | some v => if v = "" then d else v
  | none => d

/-- JS truthiness of a possibly-undefined boolean. -/
def truthy (b : Option Bool) : Bool := b.getD false

/-- The extension chosen on line 378: spec.yaml ? "yaml" : "json". -/
def specExt (spec : ExtendedSpecConfig) : String :=
  if truthy spec.yaml then "yaml" else "json"

/-- The spec file name built on line 378:
`${spec.specFileBaseName || "swagger"}.${spec.yaml ? "yaml" : "json"}`. -/
def specFileSegment (spec : ExtendedSpecConfig) : String :=
  orDefault spec.specFileBaseName "swagger" ++ "." ++ specExt spec

/-- The routes file name built on line 386:
`${routes.routesFileName || "routes.ts"}`. -/
def routesFileSegment (routes : ExtendedRoutesConfig) : String :=
  orDefault routes.routesFileName "routes.ts"

/-- One orchestrator instance: the service path, the held plugin
configuration (the same object across runs), and the world it acts on
(filesystem plus the randomness counter used by hashFile). -/
structure Orchestrator where
  servicePath : FsPath
  pluginConfig : PluginConfig
  fs : FS
  nonce : Nat
deriving DecidableEq, Repr

/-- workDir (line 370): path.join(servicePath, ".tsoa"). -/
def workDirOf (o : Orchestrator) : FsPath :=
  pathJoin o.servicePath [".tsoa"]

/-- specOutputFile (lines 376-379). -/
def specOutputFileOf (spec : ExtendedSpecConfig) : FsPath :=
  pathJoin spec.outputDirectory [specFileSegment spec]

/-- workdirSpecOutputFile (line 380). -/
def stagedSpecFileOf (o : Orchestrator) (spec : ExtendedSpecConfig) : FsPath :=
  pathJoin (workDirOf o) (specOutputFileOf spec)

/-- The assignment on line 381:
spec.outputDirectory = path.join(workDir, spec.outputDirectory).
It mutates the configuration object held by the instance. -/
def mutatedSpec (o : Orchestrator) (spec : ExtendedSpecConfig) : ExtendedSpecConfig :=
  { spec with outputDirectory := pathJoin (workDirOf o) spec.outputDirectory }

/-- routesOutputFile (lines 383-387). -/
def routesOutputFileOf (routes : ExtendedRoutesConfig) : FsPath :=
  pathJoin routes.routesDir [routesFileSegment routes]

/-- Which external generators a run invoked, in order. -/
inductive GenCall where
  | specCall
  | routesCall
  | clientCall
deriving DecidableEq, Repr

/-- How a run fails: one of the two configuration errors thrown at the
top of generate, or an error thrown by a generator or by the filesystem
and left uncaught. -/
inductive GenError where
  | missingSpecConfig
  | missingRoutesConfig
  | thrown (msg : String)
deriving DecidableEq, Repr

/-- A log entry at the level it was emitted with. -/
inductive LogEntry where
  | verbose (msg : String)
  | warning (msg : String)
deriving DecidableEq, Repr

/-- The value generate resolves with (lines 428-435). -/
structure GenResult where
  specFile : FsPath
  routesFile : FsPath
  clientFiles : List FsPath
deriving DecidableEq, Repr

/-- Everything observable about one generate() call: the instance state
afterwards (configuration mutation and filesystem effects persist even
when the run rejects), the generators invoked, the log entries emitted,
and the resolution or rejection. -/
structure RunOut where
  orch : Orchestrator
  calls : List GenCall
  logs : List LogEntry
  result : Except GenError GenResult
deriving Repr

/-- The argument object built for the client generator on lines 404-415:
input.target, the output options, and the workspace directory. -/
structure ClientGenInput where
  target : FsPath
  output : ClientConfig
  workspace : FsPath
deriving DecidableEq, Repr

/-- The three opaque external generators, as filesystem transformers
that either succeed with the new filesystem or throw. -/
structure GenEnv where
  specGen : ExtendedSpecConfig → FS → Except String FS
  routesGen : ExtendedRoutesConfig → FS → Except String FS
  clientGen : ClientGenInput → FS → Except String FS

/-- The error result of a run, if it rejected. -/
def runErr (r : RunOut) : Option GenError :=
  match r.result with
  | Except.error e => some e
  | Except.ok _ => none

/-- The resolution of a run, if it succeeded. -/
def runOk (r : RunOut) : Option GenResult :=
  match r.result with
  | Except.ok g => some g
  | Except.error _ => none

/-- generate (src/index.ts lines 351-436).  Throws when the spec or
routes configuration block is absent.  Computes the output paths,
mutates the held spec configuration to point at the staging directory,
invokes the Spec Generator, conditionally copies the staged spec over
the public spec path, invokes the Route Generator (directly at its
public path), then, when a client is configured, invokes the Client
Generator; no generator call is wrapped in a catch, so the first failure
rejects the whole call with the effects so far retained. -/
def generate (env : GenEnv) (o : Orchestrator) : RunOut :=
  match o.pluginConfig.spec with
  | none => ⟨o, [], [], Except.error GenError.missingSpecConfig⟩
  | some spec =>
    match o.pluginConfig.routes with
    | none => ⟨o, [], [], Except.error GenError.missingRoutesConfig⟩
    | some routes =>
      let specOutputFile := specOutputFileOf spec
      let workdirSpecOutputFile := stagedSpecFileOf o spec
      let spec1 := mutatedSpec o spec
      let o1 : Orchestrator :=
        { o with pluginConfig := { o.pluginConfig with spec := some spec1 } }
      let routesOutputFile := routesOutputFileOf routes
      match env.specGen spec1 o1.fs with
      | Except.error e =>
        ⟨o1, [GenCall.specCall], [], Except.error (GenError.thrown e)⟩
      | Except.ok fs1 =>
        let specLog := LogEntry.verbose
          ("Generated OpenAPI Spec: " ++ pathStr specOutputFile)
        match conditionalCopy fs1 o1.nonce workdirSpecOutputFile specOutputFile with
        | (fs2, n2, copyRes) =>
          let o2 : Orchestrator := { o1 with fs := fs2, nonce := n2 }
          match copyRes with
          | Except.error e =>
            ⟨o2, [GenCall.specCall], [specLog], Except.error (GenError.thrown e)⟩
          | Except.ok _ =>
            match env.routesGen routes o2.fs with
            | Except.error e =>
              ⟨o2, [GenCall.specCall, GenCall.routesCall], [specLog],
                Except.error (GenError.thrown e)⟩
            | Except.ok fs3 =>
              let o3 : Orchestrator := { o2 with fs := fs3 }
              let routesLog := LogEntry.verbose
                ("Generated OpenAPI Routes: " ++ pathStr routesOutputFile)
              match o3.pluginConfig.client with
              | none =>
                ⟨o3, [GenCall.specCall, GenCall.routesCall], [specLog, routesLog],
                  Except.ok
                    ⟨pathJoin o3.servicePath specOutputFile,
                     pathJoin o3.servicePath routesOutputFile, []⟩⟩
              | some client =>
                match env.clientGen
                    ⟨pathJoin o3.servicePath specOutputFile, client, o3.servicePath⟩
                    o3.fs with
                | Except.error e =>
                  ⟨o3, [GenCall.specCall, GenCall.routesCall, GenCall.clientCall],
                    [specLog, routesLog], Except.error (GenError.thrown e)⟩
                | Except.ok fs4 =>
                  let o4 : Orchestrator := { o3 with fs := fs4 }
                  match clientTarget client with
                  | some target =>
                    ⟨o4, [GenCall.specCall, GenCall.routesCall, GenCall.clientCall],
                      [specLog, routesLog,
                       LogEntry.verbose ("Generated OpenAPI Client: " ++ pathStr target)],
                      Except.ok
                        ⟨pathJoin o4.servicePath specOutputFile,
                         pathJoin o4.servicePath routesOutputFile, [target]⟩⟩
                  | none =>
                    ⟨o4, [GenCall.specCall, GenCall.routesCall, GenCall.clientCall],
                      [specLog, routesLog],
                      Except.ok
                        ⟨pathJoin o4.servicePath specOutputFile,
                         pathJoin o4.servicePath routesOutputFile, []⟩⟩

/-- The chokidar subscription built by watch (lines 443-452): the
watched root and the paths passed to unwatch. -/
structure Watcher where
  root : FsPath
  unwatched : List FsPath
deriving DecidableEq, Repr

/-- Whether root is an initial run of the segments of p. -/
def underRoot (root p : FsPath) : Bool :=
  decide (root = p.take root.length)

/-- The ignored option of line 446, the regex matching a dot right
after the start or a separator: some segment of the path starts with a
dot. -/
def hasDotSegment (p : FsPath) : Bool :=
  p.any (fun seg => decide (seg.data.head? = some '.'))

/-- chokidar delivers a change event for a path exactly when the path
lies under the watched root, matches no ignored pattern, and has not
been passed to unwatch. -/
def Watcher.delivers (w : Watcher) (p : FsPath) : Bool :=
  underRoot w.root p && !hasDotSegment p && !(w.unwatched.contains p)

/-- watch (src/index.ts lines 438-458): subscribe to the service path
ignoring dotfiles, then unwatch the spec file, the routes file and the
client files. -/
def watch (o : Orchestrator) (specFile routesFile : FsPath)
    (clientFiles : List FsPath) : Watcher :=
  ⟨o.servicePath, specFile :: routesFile :: clientFiles⟩

/-- The change listener registered on line 454: log the changed file at
verbose level and call generate; there is no surrounding catch and no
in-flight guard. -/
def onChange (env : GenEnv) (o : Orchestrator) (file : FsPath) : RunOut :=
  let r := generate env o
  ⟨r.orch, r.calls,
    LogEntry.verbose ("File " ++ pathStr file ++ " has been changed") :: r.logs,
    r.result⟩

/-- Delivery of a burst of change events to the registered listener:
chokidar invokes the listener once per event, and the listener starts a
run unconditionally.  Runs are threaded sequentially here, the schedule
most favourable to coalescing; even so every event starts its own
run. -/
def deliverAll (env : GenEnv) (o : Orchestrator) : List FsPath → List RunOut
  | [] => []
  | f :: fs =>
    let r := onChange env o f
    r :: deliverAll env r.orch fs

/-- Example spec configuration: output directory api, defaulted file
base name and format. -/
def specA : ExtendedSpecConfig :=
  ⟨["api"], none, none⟩

/-- Example routes configuration with defaulted file name. -/
def routesA : ExtendedRoutesConfig :=
  ⟨["src", "generated"], none⟩

/-- Example orchestrator with spec and routes configured and no client,
over an empty filesystem. -/
def orchA : Orchestrator :=
  ⟨["proj"], ⟨none, some specA, some routesA, none⟩, ⟨[], []⟩, 0⟩

/-- Example orchestrator additionally configured with a string client
target. -/
def orchC : Orchestrator :=
  ⟨["proj"], ⟨none, some specA, some routesA,
    some (ClientConfig.str ["src", "client.ts"])⟩, ⟨[], []⟩, 0⟩

/-- Well-behaved generators: the spec generator writes fixed bytes at
outputDirectory/swagger.json, the routes generator writes fixed bytes at
routesDir/routes.ts, the client generator writes fixed bytes at the
configured target. -/
def envOk : GenEnv :=
  ⟨fun spec fs => Except.ok (fs.write (pathJoin spec.outputDirectory ["swagger.json"]) "SPEC"),
   fun routes fs => Except.ok (fs.write (pathJoin routes.routesDir ["routes.ts"]) "ROUTES"),
   fun i fs =>
     Except.ok (match clientTarget i.output with
       | some t => fs.write t "CLIENT"
       | none => fs)⟩

/-- Generators whose spec stage throws. -/
def envSpecFail : GenEnv :=
  ⟨fun _ _ => Except.error "spec boom",
   fun routes fs => Except.ok (fs.write (pathJoin routes.routesDir ["routes.ts"]) "ROUTES"),
   fun _ fs => Except.ok fs⟩

/-- Generators whose routes stage throws. -/
def envRoutesFail : GenEnv :=
  ⟨fun spec fs => Except.ok (fs.write (pathJoin spec.outputDirectory ["swagger.json"]) "SPEC"),
   fun _ _ => Except.error "routes boom",
   fun _ fs => Except.ok fs⟩

/-- Generators whose client stage throws. -/
def envClientFail : GenEnv :=
  ⟨fun spec fs => Except.ok (fs.write (pathJoin spec.outputDirectory ["swagger.json"]) "SPEC"),
   fun routes fs => Except.ok (fs.write (pathJoin routes.routesDir ["routes.ts"]) "ROUTES"),
   fun _ _ => Except.error "client boom"⟩

/-- The first run of envOk on orchA. -/
def run1 : RunOut := generate envOk orchA

/-- The second consecutive run on the same instance. -/
def run2 : RunOut := generate envOk run1.orch

/-- Orchestrator whose configuration lacks the spec block. -/
def orchNoSpec : Orchestrator :=
  ⟨["proj"], ⟨none, none, some routesA, none⟩, ⟨[], []⟩, 0⟩

/-- Orchestrator whose configuration lacks the routes block. -/
def orchNoRoutes : Orchestrator :=
  ⟨["proj"], ⟨none, some specA, none, none⟩, ⟨[], []⟩, 0⟩

/-- A filesystem with two files holding identical bytes and a third
holding different bytes; used to exercise both conditionalCopy
branches. -/
def fsAB : FS := ⟨[(["a"], "X"), (["b"], "X"), (["c"], "Y")], []⟩

/-- A filesystem with a single readable file at a. -/
def fsOnlyA : FS := ⟨[(["a"], "X")], []⟩

/-- Example spec configuration with the yaml flag set. -/
def specY : ExtendedSpecConfig := ⟨["api"], none, some true⟩

/-- Reading back a freshly written file yields the written bytes. -/
theorem FS.read_write (fs : FS) (p : FsPath) (c : String) :
    (fs.write p c).read p = some c := by
  simp [FS.read, FS.write]

/-- ensureDir does not change file contents. -/
theorem FS.read_ensureDir (fs : FS) (d p : FsPath) :
    (fs.ensureDir d).read p = fs.read p := rfl

/-- Copying from a readable source writes its bytes to the destination. -/
theorem FS.copy_some (fs : FS) (src dest : FsPath) (c : String)
    (h : fs.read src = some c) :
    fs.copy src dest = Except.ok (fs.write dest c) := by
  simp [FS.copy, h]

/-- Writing a file leaves the recorded directories unchanged. -/
theorem FS.dirs_write (fs : FS) (p : FsPath) (c : String) :
    (fs.write p c).dirs = fs.dirs := rfl

/-- ensureDir records the directory at the head. -/
theorem FS.dirs_ensureDir (fs : FS) (d : FsPath) :
    (fs.ensureDir d).dirs = d :: fs.dirs := rfl

/-- C7.  Conditional publish behaviour: with the staged file readable,
when the two fingerprints agree the publisher returns the filesystem
untouched (and does not draw randomness) reporting unchanged; when they
differ it records the parent directory of the destination, copies the
staged bytes over the destination, and reports written. -/
theorem c7_conditional_publish (fs : FS) (n : Nat) (src dest : FsPath) (c : String)
    (hsrc : fs.read src = some c) :
    ((hashFile fs src n).1 = (hashFile fs dest n).1 →
      conditionalCopy fs n src dest = (fs, n, Except.ok CopyOutcome.unchanged))
    ∧ ((hashFile fs src n).1 ≠ (hashFile fs dest n).1 →
      dirname dest ∈ (conditionalCopy fs n src dest).1.dirs
      ∧ (conditionalCopy fs n src dest).1.read dest = some c
      ∧ (conditionalCopy fs n src dest).2.2 = Except.ok CopyOutcome.written) := by
  have hcopy : (fs.ensureDir (dirname dest)).copy src dest
      = Except.ok ((fs.ensureDir (dirname dest)).write dest c) :=
    FS.copy_some _ _ _ _ (by rw [FS.read_ensureDir, hsrc])
  cases hdest : fs.read dest with
  | some d =>
    constructor
    · intro h
      simp [hashFile, hsrc, hdest] at h
      simp [conditionalCopy, hashFile, hsrc, hdest, h]
    · intro h
      simp [hashFile, hsrc, hdest] at h
      simp [conditionalCopy, hashFile, hsrc, hdest, h, hcopy, FS.read_write,
        FS.dirs_write, FS.dirs_ensureDir]
  | none =>
    constructor
    · intro h
      simp [hashFile, hsrc, hdest] at h
    · intro h
      simp [conditionalCopy, hashFile, hsrc, hdest, hcopy, FS.read_write,
        FS.dirs_write, FS.dirs_ensureDir]

/-- C8.  Fingerprinting an unreadable path yields a fresh value drawn
from the randomness counter: the draw advances the counter, a second
draw differs from it, no content fingerprint ever equals it, and a
publish from a readable staged file onto an unreadable destination
always copies, leaving the staged bytes at the destination. -/
theorem c8_forced_publish (fs : FS) (n : Nat) (a b : FsPath) (c : String)
    (ha : fs.read a = some c) (hb : fs.read b = none) :
    hashFile fs b n = (Hash.fresh n, n + 1)
    ∧ (hashFile fs b n).1 ≠ (hashFile fs b ((hashFile fs b n).2)).1
    ∧ (∀ s, (hashFile fs b n).1 ≠ Hash.content s)
    ∧ (conditionalCopy fs n a b).2.2 = Except.ok CopyOutcome.written
    ∧ (conditionalCopy fs n a b).1.read b = some c := by
  have hcopy : (fs.ensureDir (dirname b)).copy a b
      = Except.ok ((fs.ensureDir (dirname b)).write b c) :=
    FS.copy_some _ _ _ _ (by rw [FS.read_ensureDir, ha])
  refine ⟨by simp [hashFile, hb], by simp [hashFile, hb], by simp [hashFile, hb], ?_, ?_⟩
  · simp [conditionalCopy, hashFile, ha, hb, hcopy]
  · simp [conditionalCopy, hashFile, ha, hb, hcopy, FS.read_write]

/-- C10.  Default output names: an absent spec file base name defaults
to swagger, an absent routes file name defaults to routes.ts, and the
spec extension is yaml exactly when the yaml flag is set to true,
otherwise json. -/
theorem c10_default_names (spec : ExtendedSpecConfig) (routes : ExtendedRoutesConfig) :
    (spec.specFileBaseName = none →
      specFileSegment spec = "swagger." ++ specExt spec)
    ∧ (routes.routesFileName = none → routesFileSegment routes = "routes.ts")
    ∧ (specExt spec = "yaml" ↔ spec.yaml = some true) := by
  refine ⟨fun h => by simp [specFileSegment, orDefault, h], fun h => by simp [routesFileSegment, orDefault, h], ?_⟩
  cases hy : spec.yaml with
  | none => simp [specExt, truthy, hy]
  | some b => cases b <;> simp [specExt, truthy, hy]

/-- Paths under the staging directory carry the dotted .tsoa segment. -/
theorem hasDotSegment_staging (xs ys : List String) :
    hasDotSegment (xs ++ [".tsoa"] ++ ys) = true := by
  simp [hasDotSegment, List.any_append]

/-- C9.  Isolation from self-triggering: a watcher built by watch never
delivers a change event for the published spec file, the published
routes file, any of the client files, or any staged spec path inside
the dotted working directory. -/
theorem c9_watch_exclusion (o : Orchestrator) (sF rF : FsPath) (cs : List FsPath) :
    ((watch o sF rF cs).delivers sF = false)
    ∧ ((watch o sF rF cs).delivers rF = false)
    ∧ (∀ p, p ∈ cs → (watch o sF rF cs).delivers p = false)
    ∧ (∀ spec, (watch o sF rF cs).delivers (stagedSpecFileOf o spec) = false) := by
  refine ⟨?_, ?_, fun p hp => ?_, fun spec => ?_⟩
  · simp [watch, Watcher.delivers]
  · simp [watch, Watcher.delivers]
  · simp [watch, Watcher.delivers]
    intro _ _ _ _
    exact hp
  · have hdot : hasDotSegment (stagedSpecFileOf o spec) = true := by
      have : stagedSpecFileOf o spec
          = o.servicePath ++ [".tsoa"] ++ specOutputFileOf spec := rfl
      rw [this, hasDotSegment_staging]
    simp [Watcher.delivers, hdot]

/-- Every log entry generate emits is at verbose level. -/
theorem generate_logs_all_verbose (env : GenEnv) (o : Orchestrator) :
    ∀ m, LogEntry.warning m ∉ (generate env o).logs := by
  rcases hgen : generate env o with ⟨o1, cs, ls, res⟩
  simp only [generate] at hgen
  repeat' split at hgen
  all_goals (cases hgen; simp_all)

/-- C1 (amended).  The pipeline keeps no remembered fingerprint and has
no short circuit: every run that resolves successfully has invoked the
Route Generator, and the Client Generator as well whenever a client is
configured, regardless of whether the staged spec changed. -/
theorem c1_no_short_circuit (env : GenEnv) (o : Orchestrator) (g : GenResult)
    (h : (generate env o).result = Except.ok g) :
    GenCall.routesCall ∈ (generate env o).calls
    ∧ (o.pluginConfig.client.isSome = true →
      GenCall.clientCall ∈ (generate env o).calls) := by
  revert h
  rcases hgen : generate env o with ⟨o1, cs, ls, res⟩
  intro h
  simp only [generate] at hgen
  repeat' split at hgen
  all_goals (cases hgen; simp_all)

/-- C1 (counterexample).  Two consecutive runs whose staged spec bytes
are identical: the second run still resolves successfully and still
invokes the Route Generator. -/
theorem c1_counterexample :
    run1.orch.fs.read ["proj", ".tsoa", "api", "swagger.json"] = some "SPEC"
    ∧ run2.orch.fs.read ["proj", ".tsoa", "proj", ".tsoa", "api", "swagger.json"]
      = some "SPEC"
    ∧ (runOk run2).isSome = true
    ∧ GenCall.routesCall ∈ run2.calls :=
  ⟨rfl, rfl, rfl, by decide⟩

/-- C1 (witness). -/
theorem c1_no_short_circuit_witness :
    GenCall.routesCall ∈ (generate envOk orchC).calls
    ∧ GenCall.clientCall ∈ (generate envOk orchC).calls :=
  ⟨(c1_no_short_circuit envOk orchC
      ⟨["proj", "api", "swagger.json"], ["proj", "src", "generated", "routes.ts"],
        [["src", "client.ts"]]⟩ rfl).1,
   (c1_no_short_circuit envOk orchC
      ⟨["proj", "api", "swagger.json"], ["proj", "src", "generated", "routes.ts"],
        [["src", "client.ts"]]⟩ rfl).2 rfl⟩

/-- C2.  The held configuration is not deep-copied: generate mutates
the stored spec output directory, so the second of two consecutive runs
on the same instance resolves different staged and published spec paths
(the second publish lands inside the staging directory). -/
theorem c2_config_not_copied :
    runOk run1 = some ⟨["proj", "api", "swagger.json"],
      ["proj", "src", "generated", "routes.ts"], []⟩
    ∧ runOk run2 = some ⟨["proj", "proj", ".tsoa", "api", "swagger.json"],
      ["proj", "src", "generated", "routes.ts"], []⟩
    ∧ orchA.pluginConfig.spec = some ⟨["api"], none, none⟩
    ∧ run1.orch.pluginConfig.spec = some ⟨["proj", ".tsoa", "api"], none, none⟩
    ∧ run2.orch.pluginConfig.spec
      = some ⟨["proj", ".tsoa", "proj", ".tsoa", "api"], none, none⟩ :=
  ⟨rfl, rfl, rfl, rfl, rfl⟩

/-- C3 (amended).  The change handler registered by watch wraps generate
in no catch: a rejected run rejects the handler with the same error, and
no warning-level entry is ever logged. -/
theorem c3_handler_uncaught (env : GenEnv) (o : Orchestrator) (file : FsPath)
    (e : GenError) (h : (generate env o).result = Except.error e) :
    (onChange env o file).result = Except.error e
    ∧ ∀ m, LogEntry.warning m ∉ (onChange env o file).logs := by
  constructor
  · exact h
  · intro m
    simp only [onChange, List.mem_cons]
    rintro (hhead | htail)
    · cases hhead
    · exact generate_logs_all_verbose env o m htail

/-- C3 (counterexample).  A failing spec generator rejects the change
handler itself: the failure escapes the watch loop instead of being
caught, logged as a warning and rescheduled. -/
theorem c3_counterexample :
    runErr (onChange envSpecFail orchA ["src", "handler.ts"])
      = some (GenError.thrown "spec boom") := rfl

/-- C3 (witness). -/
theorem c3_handler_uncaught_witness :
    (onChange envSpecFail orchA ["src", "app.ts"]).result
      = Except.error (GenError.thrown "spec boom") :=
  (c3_handler_uncaught envSpecFail orchA ["src", "app.ts"]
    (GenError.thrown "spec boom") rfl).1

/-- C4 (amended).  The listener performs no coalescing and keeps no
in-flight flag: delivering a burst of change events starts exactly one
run per event, even under the schedule most favourable to coalescing. -/
theorem c4_no_coalescing (env : GenEnv) (o : Orchestrator) (events : List FsPath) :
    (deliverAll env o events).length = events.length := by
  induction events generalizing o with
  | nil => rfl
  | cons f fs ih => simp [deliverAll, ih]

/-- C4 (counterexample).  Three rapid change events start three runs,
not at most one additional run. -/
theorem c4_counterexample :
    (deliverAll envOk orchA [["src", "a.ts"], ["src", "b.ts"], ["src", "c.ts"]]).length = 3
    ∧ (deliverAll envOk orchA
        [["src", "a.ts"], ["src", "b.ts"], ["src", "c.ts"]]).length ≠ 1 :=
  ⟨rfl, by decide⟩

/-- C5 (amended).  After the spec is published the Route Generator and
the Client Generator run sequentially, routes first, with no catch: a
Client Generator failure rejects the whole run, while the routes output
written beforehand remains on the filesystem. -/
theorem c5_sequential_uncaught (env : GenEnv) (o : Orchestrator)
    (spec : ExtendedSpecConfig) (routes : ExtendedRoutesConfig) (client : ClientConfig)
    (fs1 fs2 : FS) (n2 : Nat) (out : CopyOutcome) (fs3 : FS) (e : String)
    (hs : o.pluginConfig.spec = some spec)
    (hr : o.pluginConfig.routes = some routes)
    (hc : o.pluginConfig.client = some client)
    (h1 : env.specGen (mutatedSpec o spec) o.fs = Except.ok fs1)
    (h2 : conditionalCopy fs1 o.nonce (stagedSpecFileOf o spec) (specOutputFileOf spec)
      = (fs2, n2, Except.ok out))
    (h3 : env.routesGen routes fs2 = Except.ok fs3)
    (h4 : env.clientGen
        ⟨pathJoin o.servicePath (specOutputFileOf spec), client, o.servicePath⟩ fs3
      = Except.error e) :
    (generate env o).result = Except.error (GenError.thrown e)
    ∧ (generate env o).calls = [GenCall.specCall, GenCall.routesCall, GenCall.clientCall]
    ∧ (generate env o).orch.fs = fs3 := by
  simp [generate, hs, hr, hc, h1, h2, h3, h4]

/-- C5 (counterexample).  A thrown Client Generator failure escapes
generate instead of being caught and logged independently; only the two
verbose success lines of the earlier stages were logged. -/
theorem c5_counterexample :
    runErr (generate envClientFail orchC) = some (GenError.thrown "client boom")
    ∧ (generate envClientFail orchC).logs =
      [LogEntry.verbose "Generated OpenAPI Spec: api/swagger.json",
       LogEntry.verbose "Generated OpenAPI Routes: src/generated/routes.ts"] :=
  ⟨rfl, rfl⟩

/-- C5 (witness). -/
theorem c5_sequential_uncaught_witness :
    (generate envClientFail orchC).result = Except.error (GenError.thrown "client boom")
    ∧ (generate envClientFail orchC).calls
      = [GenCall.specCall, GenCall.routesCall, GenCall.clientCall]
    ∧ (generate envClientFail orchC).orch.fs =
      ⟨[(["src", "generated", "routes.ts"], "ROUTES"),
        (["api", "swagger.json"], "SPEC"),
        (["proj", ".tsoa", "api", "swagger.json"], "SPEC")], [["api"]]⟩ :=
  c5_sequential_uncaught envClientFail orchC specA routesA
    (ClientConfig.str ["src", "client.ts"])
    ⟨[(["proj", ".tsoa", "api", "swagger.json"], "SPEC")], []⟩
    ⟨[(["api", "swagger.json"], "SPEC"),
      (["proj", ".tsoa", "api", "swagger.json"], "SPEC")], [["api"]]⟩
    1 CopyOutcome.written
    ⟨[(["src", "generated", "routes.ts"], "ROUTES"),
      (["api", "swagger.json"], "SPEC"),
      (["proj", ".tsoa", "api", "swagger.json"], "SPEC")], [["api"]]⟩
    "client boom" rfl rfl rfl rfl rfl rfl rfl

/-- C6 (amended).  generate rejects with a configuration error when the
spec or routes block is absent, and also rejects with the thrown message
when the spec generator itself fails: generator-internal failures are
not captured. -/
theorem c6_throws (env : GenEnv) (o : Orchestrator) :
    (o.pluginConfig.spec = none →
      (generate env o).result = Except.error GenError.missingSpecConfig)
    ∧ (∀ spec, o.pluginConfig.spec = some spec → o.pluginConfig.routes = none →
      (generate env o).result = Except.error GenError.missingRoutesConfig)
    ∧ (∀ spec routes e, o.pluginConfig.spec = some spec →
        o.pluginConfig.routes = some routes →
        env.specGen (mutatedSpec o spec) o.fs = Except.error e →
        (generate env o).result = Except.error (GenError.thrown e)) := by
  refine ⟨fun h => ?_, fun spec hs hr => ?_, fun spec routes e hs hr hg => ?_⟩
  · simp [generate, h]
  · simp [generate, hs, hr]
  · simp [generate, hs, hr, hg]

/-- C6 (counterexample).  A generator-internal failure is thrown out of
generate rather than captured as a failed outcome. -/
theorem c6_counterexample :
    runErr (generate envSpecFail orchA) = some (GenError.thrown "spec boom") := rfl

/-- C6 (witness). -/
theorem c6_throws_witness :
    (generate envOk orchNoSpec).result = Except.error GenError.missingSpecConfig
    ∧ (generate envOk orchNoRoutes).result = Except.error GenError.missingRoutesConfig
    ∧ (generate envSpecFail orchA).result = Except.error (GenError.thrown "spec boom") :=
  ⟨(c6_throws envOk orchNoSpec).1 rfl,
   (c6_throws envOk orchNoRoutes).2.1 specA rfl rfl,
   (c6_throws envSpecFail orchA).2.2 specA routesA "spec boom" rfl rfl rfl⟩

/-- C7 (witness). -/
theorem c7_conditional_publish_witness :
    conditionalCopy fsAB 0 ["a"] ["b"] = (fsAB, 0, Except.ok CopyOutcome.unchanged)
    ∧ dirname ["c"] ∈ (conditionalCopy fsAB 0 ["a"] ["c"]).1.dirs
    ∧ (conditionalCopy fsAB 0 ["a"] ["c"]).1.read ["c"] = some "X"
    ∧ (conditionalCopy fsAB 0 ["a"] ["c"]).2.2 = Except.ok CopyOutcome.written :=
  ⟨(c7_conditional_publish fsAB 0 ["a"] ["b"] "X" rfl).1 (by decide),
   ((c7_conditional_publish fsAB 0 ["a"] ["c"] "X" rfl).2 (by decide)).1,
   ((c7_conditional_publish fsAB 0 ["a"] ["c"] "X" rfl).2 (by decide)).2.1,
   ((c7_conditional_publish fsAB 0 ["a"] ["c"] "X" rfl).2 (by decide)).2.2⟩

/-- C8 (witness). -/
theorem c8_forced_publish_witness :
    hashFile fsOnlyA ["b"] 0 = (Hash.fresh 0, 1)
    ∧ (conditionalCopy fsOnlyA 0 ["a"] ["b"]).2.2 = Except.ok CopyOutcome.written
    ∧ (conditionalCopy fsOnlyA 0 ["a"] ["b"]).1.read ["b"] = some "X" :=
  ⟨(c8_forced_publish fsOnlyA 0 ["a"] ["b"] "X" rfl rfl).1,
   (c8_forced_publish fsOnlyA 0 ["a"] ["b"] "X" rfl rfl).2.2.2.1,
   (c8_forced_publish fsOnlyA 0 ["a"] ["b"] "X" rfl rfl).2.2.2.2⟩

/-- C9 (witness). -/
theorem c9_watch_exclusion_witness :
    (watch orchA ["proj", "api", "swagger.json"]
      ["proj", "src", "generated", "routes.ts"]
      [["src", "client.ts"]]).delivers ["proj", "api", "swagger.json"] = false
    ∧ (watch orchA ["proj", "api", "swagger.json"]
      ["proj", "src", "generated", "routes.ts"]
      [["src", "client.ts"]]).delivers ["src", "client.ts"] = false
    ∧ (watch orchA ["proj", "api", "swagger.json"]
      ["proj", "src", "generated", "routes.ts"]
      [["src", "client.ts"]]).delivers (stagedSpecFileOf orchA specA) = false :=
  ⟨(c9_watch_exclusion orchA ["proj", "api", "swagger.json"]
      ["proj", "src", "generated", "routes.ts"] [["src", "client.ts"]]).1,
   (c9_watch_exclusion orchA ["proj", "api", "swagger.json"]
      ["proj", "src", "generated", "routes.ts"] [["src", "client.ts"]]).2.2.1
     ["src", "client.ts"] (by decide),
   (c9_watch_exclusion orchA ["proj", "api", "swagger.json"]
      ["proj", "src", "generated", "routes.ts"] [["src", "client.ts"]]).2.2.2 specA⟩

/-- C10 (witness). -/
theorem c10_default_names_witness :
    specFileSegment specA = "swagger." ++ specExt specA
    ∧ routesFileSegment routesA = "routes.ts"
    ∧ specExt specY = "yaml" :=
  ⟨(c10_default_names specA routesA).1 rfl,
   (c10_default_names specA routesA).2.1 rfl,
   (c10_default_names specY routesA).2.2.mpr rfl⟩

end ServerlessTsoa
